import Mathlib

/-!
Verification of `DefaultOperationLongPollChannel`
(src/client/client-multi/client-cpp/impl/channel/impl/DefaultOperationLongPollChannel.cpp).

The channel is a long-poll transport: a single worker thread repeatedly issues
poll requests while caller threads start, stop and reconfigure the channel.
All channel flags (`stopped_`, `connectionInProgress_`, `taskPosted_`,
`firstStart_`), the collaborator pointers and the server binding are guarded by
one mutex (`channelGuard_`).

The embedding has two layers:
1. pure functions, one per lock-section (or maximal atomic region) of the
   source, acting on `ChannelState` and emitting `Emit` events, each event
   tagged with whether it is emitted while `channelGuard_` is held;
2. a small-step relation `Step` interleaving the worker thread (program
   counter `WorkerPC`) with one lifecycle caller thread (`CallerPC`), whose
   atomic actions are exactly those functions.

Blocking calls (`httpClient_.sendRequest`, the condition wait in `stopPoll`)
are the boundaries between atomic actions: the worker suspends at
`WorkerPC.sending`, a stopper suspends at `CallerPC.stopWaiting`.
-/

set_option autoImplicit false

namespace LongPoll

/-- Transport types (`TransportType` enum of the client). -/
inductive TransportType
  | BOOTSTRAP
  | PROFILE
  | CONFIGURATION
  | NOTIFICATION
  | USER
  | EVENT
  | LOGGING
deriving DecidableEq, Repr

/-- Channel directions (`ChannelDirection` enum). -/
inductive ChannelDirection
  | UP
  | DOWN
  | BIDIRECTIONAL
deriving DecidableEq, Repr

/-- Channel types (`ChannelType` enum); this channel accepts only `HTTP_LP`. -/
inductive ChannelType
  | HTTP
  | HTTP_LP
  | KAATCP
deriving DecidableEq, Repr

/-- A server descriptor (`IServerInfo` / `OperationServerLongPollInfo`):
`getType()`, `getHost()`, `getPort()`, `getUrl()`, `getPublicKey()`. -/
structure ServerInfo where
  chType : ChannelType
  host : String
  port : Nat
  url : String
  publicKey : String
deriving DecidableEq, Repr

/-- The encryption context derived in `setServer`:
`RsaEncoderDecoder(clientKeys_.first, clientKeys_.second, currentServer_->getPublicKey())`. -/
structure EncoderDecoder where
  clientPubKey : String
  clientPrivKey : String
  serverPubKey : String
deriving DecidableEq, Repr

/-- Derivation of the encryption context from the client key pair and the
server public key (`new RsaEncoderDecoder(...)` in `setServer`). -/
def deriveEncDec (clientKeys : String × String) (serverKey : String) : EncoderDecoder :=
  ⟨clientKeys.1, clientKeys.2, serverKey⟩

/-- The mutable channel state guarded by `channelGuard_`, plus the task queue
of the worker (`io_`): `pendingTasks` counts closures posted by `io_.post` and
not yet begun. Collaborator pointers are nullable (`Option`); the payload of
`some` is an opaque identity. Constructor initial values are in `initFlags`. -/
structure ChannelState where
  stopped : Bool
  connectionInProgress : Bool
  taskPosted : Bool
  firstStart : Bool
  multiplexer : Option Nat
  demultiplexer : Option Nat
  currentServer : Option ServerInfo
  encoderDecoder : Option EncoderDecoder
  pendingTasks : Nat
deriving DecidableEq, Repr

/-- Observable events of the channel. Log events record only the branch taken
(the message text is abbreviated); purely informational progress logs are not
modelled. -/
inductive Event
  | spawnThread
  | postTask
  | closeConnection
  | compileRequest
  | sendRequest (url : String)
  | processResponse
  | notifyAll
  | onServerFailed (srv : ServerInfo)
  | logInfo (msg : String)
  | logWarn (msg : String)
  | logError (msg : String)
deriving DecidableEq, Repr

/-- An emitted event together with whether `channelGuard_` is held at the
emission point. -/
structure Emit where
  locked : Bool
  ev : Event
deriving DecidableEq, Repr

/-- `postTask()`: `io_.post(executeTask); taskPosted_ = true`. Both call sites
(`startPoll`, the re-arm section of `executeTask`) hold the mutex. -/
def postTaskFn (s : ChannelState) : ChannelState × List Emit :=
  ({ s with pendingTasks := s.pendingTasks + 1, taskPosted := true },
   [Emit.mk true Event.postTask])

/-- `startPoll()` (lines 42-61): under the mutex, spawn the worker thread on
the very first call (`firstStart_`), then if stopped clear `stopped_` and post
one poll task; otherwise do nothing (a log only). -/
def startPollFn (s : ChannelState) : ChannelState × List Emit :=
  let p :=
    if s.firstStart then
      ({ s with firstStart := false }, [Emit.mk true Event.spawnThread])
    else (s, ([] : List Emit))
  if p.1.stopped then
    let q := postTaskFn { p.1 with stopped := false }
    (q.1, p.2 ++ q.2)
  else p

/-- The body of `stopPoll()` (lines 63-77) up to (but not including) the
condition wait: if not stopped, set `stopped_`; if a connection is in
progress, close it and prepare to wait. The returned `Bool` is whether the
caller enters `waitCondition_.wait`. -/
def stopBeginFn (s : ChannelState) : ChannelState × List Emit × Bool :=
  if s.stopped then (s, [], false)
  else
    let s1 := { s with stopped := true }
    if s1.connectionInProgress then
      (s1, [Emit.mk true Event.closeConnection], true)
    else (s1, [], false)

/-- Whole `stopPoll()` as seen by a sequential caller: the condition wait
`waitCondition_.wait(lock, λ → ¬connectionInProgress_)` returns only once the
worker's completion/failure handler has cleared `connectionInProgress_` (that
clearing is the worker's own step in the interleaved model below), so the
post-state of a completed `stopPoll` has the flag false. -/
def stopPollFn (s : ChannelState) : ChannelState × List Emit :=
  let r := stopBeginFn s
  if r.2.2 then ({ r.1 with connectionInProgress := false }, r.2.1) else (r.1, r.2.1)

/-- Lookup in the `SUPPORTED_TYPES` `std::map` (first matching key). -/
def lookupDir : List (TransportType × ChannelDirection) → TransportType → Option ChannelDirection
  | [], _ => none
  | (a, d) :: rest, t => if a = t then some d else lookupDir rest t

/-- `DefaultOperationLongPollChannel::SUPPORTED_TYPES` (lines 28-35). -/
def SUPPORTED_TYPES : List (TransportType × ChannelDirection) :=
  [(TransportType.PROFILE, ChannelDirection.BIDIRECTIONAL),
   (TransportType.CONFIGURATION, ChannelDirection.BIDIRECTIONAL),
   (TransportType.NOTIFICATION, ChannelDirection.BIDIRECTIONAL),
   (TransportType.USER, ChannelDirection.BIDIRECTIONAL),
   (TransportType.EVENT, ChannelDirection.DOWN)]

/-- Context a poll cycle captures at its start: `server = currentServer_`
(line 96). -/
structure Ctx where
  server : ServerInfo
deriving DecidableEq, Repr

/-- Result of the entry lock-section of `executeTask` (lines 85-104). -/
inductive EntryResult
  | aborted (s : ChannelState) (evs : List Emit)
  | proceed (s : ChannelState) (ctx : Ctx) (evs : List Emit)
  | nullDeref
deriving DecidableEq, Repr

/-- Entry lock-section of `executeTask` (lines 85-104): clear `taskPosted_`;
return if `stopped_`; otherwise set `connectionInProgress_`, capture
`currentServer_`, call `multiplexer_->compileRequest(...)` WHILE THE MUTEX IS
HELD (line 98, the unlock is at line 103), build the request, unlock, and
start `httpClient_.sendRequest`. There is no presence check on
`multiplexer_` or `currentServer_`: if either is null the source dereferences
a null pointer (`EntryResult.nullDeref`). -/
def entryFn (s : ChannelState) : EntryResult :=
  let s1 := { s with taskPosted := false }
  if s1.stopped then EntryResult.aborted s1 []
  else
    let s2 := { s1 with connectionInProgress := true }
    match s2.multiplexer, s2.currentServer with
    | none, _ => EntryResult.nullDeref
    | some _, none => EntryResult.nullDeref
    | some _, some srv =>
        EntryResult.proceed s2 ⟨srv⟩
          [Emit.mk true Event.compileRequest, Emit.mk false (Event.sendRequest srv.url)]

/-- The `catch` handler of `executeTask` (lines 121-143): under the mutex
clear `connectionInProgress_`; if `stopped_`, only log the abort; otherwise
log, set `stopped_` and remember to escalate. After unlocking, notify all
waiters and, in the escalation case, call
`channelManager_->onServerFailed(server)` with the server captured at cycle
start. The handler returns without reaching the re-arm section. -/
def catchFn (ctx : Ctx) (s : ChannelState) : ChannelState × List Emit :=
  let s1 := { s with connectionInProgress := false }
  if s1.stopped then
    (s1, [Emit.mk true (Event.logInfo "connection aborted"),
          Emit.mk false Event.notifyAll])
  else
    ({ s1 with stopped := true },
     [Emit.mk true (Event.logError "connection failed"),
      Emit.mk false Event.notifyAll,
      Emit.mk false (Event.onServerFailed ctx.server)])

/-- Success lock-section after `sendRequest` returns (lines 108-116): under
the mutex clear `connectionInProgress_` and decode the response, then
unlock. -/
def recvFn (s : ChannelState) : ChannelState × List Emit :=
  ({ s with connectionInProgress := false }, [])

/-- Result of handing the response to the demultiplexer. -/
inductive HandResult
  | ok (evs : List Emit)
  | nullDeref
deriving DecidableEq, Repr

/-- Lines 117-120, outside the mutex: `demultiplexer_->processResponse(...)`
(a null dereference if the demultiplexer was never set) followed by
`waitCondition_.notify_all()`. -/
def handFn (s : ChannelState) : HandResult :=
  match s.demultiplexer with
  | none => HandResult.nullDeref
  | some _ =>
      HandResult.ok [Emit.mk false Event.processResponse, Emit.mk false Event.notifyAll]

/-- Re-arm lock-section of `executeTask` (lines 146-151): re-acquire the
mutex; if not stopped and no task is already posted, post the next poll
cycle. -/
def reArmFn (s : ChannelState) : ChannelState × List Emit :=
  if !s.stopped && !s.taskPosted then postTaskFn s else (s, [])

/-- `sync(type)` (lines 154-174): look the type up in `SUPPORTED_TYPES`; if
present with direction `UP` or `BIDIRECTIONAL` and a server is bound, stop
then restart polling; with no server bound, warn only; otherwise log an
error. -/
def syncFn (t : TransportType) (s : ChannelState) : ChannelState × List Emit :=
  match lookupDir SUPPORTED_TYPES t with
  | some d =>
      if d = ChannelDirection.UP ∨ d = ChannelDirection.BIDIRECTIONAL then
        if s.currentServer.isSome then
          let r1 := stopPollFn s
          let r2 := startPollFn r1.1
          (r2.1, r1.2 ++ r2.2)
        else (s, [Emit.mk true (Event.logWarn "server is null")])
      else (s, [Emit.mk false (Event.logError "unsupported transport type")])
  | none => (s, [Emit.mk false (Event.logError "unsupported transport type")])

/-- `syncAll()` (lines 176-191): if a server is bound, stop then restart
polling; otherwise warn only. -/
def syncAllFn (s : ChannelState) : ChannelState × List Emit :=
  if s.currentServer.isSome then
    let r1 := stopPollFn s
    let r2 := startPollFn r1.1
    (r2.1, r1.2 ++ r2.2)
  else (s, [Emit.mk true (Event.logWarn "server is null")])

/-- `setMultiplexer` (lines 193-199): replace the pointer under the mutex. -/
def setMultiplexerFn (m : Option Nat) (s : ChannelState) : ChannelState :=
  { s with multiplexer := m }

/-- `setDemultiplexer` (lines 201-207): replace the pointer under the mutex. -/
def setDemultiplexerFn (d : Option Nat) (s : ChannelState) : ChannelState :=
  { s with demultiplexer := d }

/-- `setServer(server)` (lines 209-226): accepted only when
`server->getType() == ChannelType::HTTP_LP`; on acceptance stop polling, then
under the mutex replace `currentServer_` and install a freshly derived
`RsaEncoderDecoder`, then start polling again; otherwise log an error and
change nothing. -/
def setServerFn (clientKeys : String × String) (srv : ServerInfo) (s : ChannelState) :
    ChannelState × List Emit :=
  if srv.chType = ChannelType.HTTP_LP then
    let r1 := stopPollFn s
    let s2 := { r1.1 with currentServer := some srv,
                          encoderDecoder := some (deriveEncDec clientKeys srv.publicKey) }
    let r2 := startPollFn s2
    (r2.1, r1.2 ++ r2.2)
  else (s, [Emit.mk false (Event.logError "invalid server info")])

/-- Constructor initial state (lines 37-40): `stopped_(true)`,
`connectionInProgress_(false)`, `taskPosted_(false)`, `firstStart_(true)`,
`multiplexer_(nullptr)`, `demultiplexer_(nullptr)`, no server bound, empty
task queue. -/
def initFlags : ChannelState :=
  { stopped := true, connectionInProgress := false, taskPosted := false,
    firstStart := true, multiplexer := none, demultiplexer := none,
    currentServer := none, encoderDecoder := none, pendingTasks := 0 }

/-- Program counter of the worker thread running `io_.run()`. `sending` is the
suspension inside `httpClient_.sendRequest`; `handing` is after the receive
lock-section, about to call the demultiplexer; `rearming` is about to run the
re-arm lock-section; `crashed` marks a null-pointer dereference (undefined
behaviour in the source). -/
inductive WorkerPC
  | idle
  | sending (ctx : Ctx)
  | handing (ctx : Ctx)
  | rearming (ctx : Ctx)
  | crashed
deriving DecidableEq, Repr

/-- Program counter of the (single modelled) lifecycle caller thread.
`stopWaiting` is the suspension inside `stopPoll`'s condition wait. -/
inductive CallerPC
  | free
  | stopWaiting
deriving DecidableEq, Repr

/-- Global state of the interleaved system. -/
structure Sys where
  flags : ChannelState
  worker : WorkerPC
  caller : CallerPC
deriving DecidableEq, Repr

/-- Labels of atomic actions. -/
inductive Label
  | wTaskStart
  | wSendOk
  | wSendFail
  | wHandOk
  | wHandFail
  | wReArm
  | cStartPoll
  | cStopBegin
  | cStopFinish
  | cSetMultiplexer (m : Option Nat)
  | cSetDemultiplexer (d : Option Nat)
  | cRebind (clientKeys : String × String) (srv : ServerInfo)
deriving DecidableEq, Repr

/-- Dequeue one posted task from `io_`. -/
def dequeue (s : ChannelState) : ChannelState :=
  { s with pendingTasks := s.pendingTasks - 1 }

/-- The rebind lock-section inside `setServer` (lines 213-221): replace
`currentServer_` and install the freshly derived encoder/decoder. -/
def rebindFn (ck : String × String) (srv : ServerInfo) (s : ChannelState) : ChannelState :=
  { s with currentServer := some srv,
           encoderDecoder := some (deriveEncDec ck srv.publicKey) }

/-- Small-step interleaving semantics. Each atomic action is one lock-section
of the source (with any trailing lock-free, event-only code attached), so
interleavings happen exactly at the points where the mutex is released. The
worker dequeues a posted task and runs `executeTask` up to the send
(`wTaskStart`), then either the send completes (`wSendOk`) or throws
(`wSendFail`); after a successful receive, the demultiplexer call either
returns (`wHandOk`), throws (`wHandFail`, flowing into the same `catch`
handler), or dereferences a null pointer; then the re-arm section runs
(`wReArm`). The caller runs `startPoll`, the two halves of `stopPoll`
(`cStopBegin` possibly suspending into the condition wait, `cStopFinish`
enabled only once `connectionInProgress_` is false, mirroring the wait
predicate), collaborator setters, and the rebind lock-section of
`setServer`. -/
inductive Step : Sys → Label → List Emit → Sys → Prop
  | taskAbort (sys : Sys) (s1 : ChannelState) (evs : List Emit) :
      sys.worker = WorkerPC.idle →
      0 < sys.flags.pendingTasks →
      entryFn (dequeue sys.flags) = EntryResult.aborted s1 evs →
      Step sys Label.wTaskStart evs { sys with flags := s1 }
  | taskProceed (sys : Sys) (s1 : ChannelState) (ctx : Ctx) (evs : List Emit) :
      sys.worker = WorkerPC.idle →
      0 < sys.flags.pendingTasks →
      entryFn (dequeue sys.flags) = EntryResult.proceed s1 ctx evs →
      Step sys Label.wTaskStart evs { sys with flags := s1, worker := WorkerPC.sending ctx }
  | taskCrash (sys : Sys) :
      sys.worker = WorkerPC.idle →
      0 < sys.flags.pendingTasks →
      entryFn (dequeue sys.flags) = EntryResult.nullDeref →
      Step sys Label.wTaskStart [] { sys with flags := dequeue sys.flags, worker := WorkerPC.crashed }
  | sendOk (sys : Sys) (ctx : Ctx) :
      sys.worker = WorkerPC.sending ctx →
      Step sys Label.wSendOk (recvFn sys.flags).2
        { sys with flags := (recvFn sys.flags).1, worker := WorkerPC.handing ctx }
  | sendFail (sys : Sys) (ctx : Ctx) :
      sys.worker = WorkerPC.sending ctx →
      Step sys Label.wSendFail (catchFn ctx sys.flags).2
        { sys with flags := (catchFn ctx sys.flags).1, worker := WorkerPC.idle }
  | handOk (sys : Sys) (ctx : Ctx) (evs : List Emit) :
      sys.worker = WorkerPC.handing ctx →
      handFn sys.flags = HandResult.ok evs →
      Step sys Label.wHandOk evs { sys with worker := WorkerPC.rearming ctx }
  | handCrash (sys : Sys) (ctx : Ctx) :
      sys.worker = WorkerPC.handing ctx →
      handFn sys.flags = HandResult.nullDeref →
      Step sys Label.wHandOk [] { sys with worker := WorkerPC.crashed }
  | handFail (sys : Sys) (ctx : Ctx) :
      sys.worker = WorkerPC.handing ctx →
      sys.flags.demultiplexer.isSome = true →
      Step sys Label.wHandFail (catchFn ctx sys.flags).2
        { sys with flags := (catchFn ctx sys.flags).1, worker := WorkerPC.idle }
  | reArm (sys : Sys) (ctx : Ctx) :
      sys.worker = WorkerPC.rearming ctx →
      Step sys Label.wReArm (reArmFn sys.flags).2
        { sys with flags := (reArmFn sys.flags).1, worker := WorkerPC.idle }
  | startPoll (sys : Sys) :
      sys.caller = CallerPC.free →
      Step sys Label.cStartPoll (startPollFn sys.flags).2
        { sys with flags := (startPollFn sys.flags).1 }
  | stopNoWait (sys : Sys) (s1 : ChannelState) (evs : List Emit) :
      sys.caller = CallerPC.free →
      stopBeginFn sys.flags = (s1, evs, false) →
      Step sys Label.cStopBegin evs { sys with flags := s1 }
  | stopWait (sys : Sys) (s1 : ChannelState) (evs : List Emit) :
      sys.caller = CallerPC.free →
      stopBeginFn sys.flags = (s1, evs, true) →
      Step sys Label.cStopBegin evs { sys with flags := s1, caller := CallerPC.stopWaiting }
  | stopFinish (sys : Sys) :
      sys.caller = CallerPC.stopWaiting →
      sys.flags.connectionInProgress = false →
      Step sys Label.cStopFinish [] { sys with caller := CallerPC.free }
  | setMux (sys : Sys) (m : Option Nat) :
      sys.caller = CallerPC.free →
      Step sys (Label.cSetMultiplexer m) [] { sys with flags := setMultiplexerFn m sys.flags }
  | setDemux (sys : Sys) (d : Option Nat) :
      sys.caller = CallerPC.free →
      Step sys (Label.cSetDemultiplexer d) [] { sys with flags := setDemultiplexerFn d sys.flags }
  | rebind (sys : Sys) (ck : String × String) (srv : ServerInfo) :
      sys.caller = CallerPC.free →
      Step sys (Label.cRebind ck srv) [] { sys with flags := rebindFn ck srv sys.flags }

/-- Initial system: constructor state, worker idle, caller free. -/
def initSys : Sys :=
  { flags := initFlags, worker := WorkerPC.idle, caller := CallerPC.free }

/-- Reachability from the constructor state. -/
inductive Reachable : Sys → Prop
  | init : Reachable initSys
  | step (sys : Sys) (l : Label) (evs : List Emit) (sys' : Sys) :
      Reachable sys → Step sys l evs sys' → Reachable sys'

/-- A request is in flight only while the channel is started in the spec's
sense: `started` is true from the start of polling until a `stopPoll`
completes, so either `stopped_` is still false or the stopper is still
suspended in the condition wait of its `stopPoll` call. -/
def CipInv (sys : Sys) : Prop :=
  sys.flags.connectionInProgress = true →
    sys.flags.stopped = false ∨ sys.caller = CallerPC.stopWaiting

/-! ### Concrete states used by counterexamples and witnesses -/

/-- A concrete long-poll server descriptor. -/
def exServer : ServerInfo :=
  { chType := ChannelType.HTTP_LP, host := "h", port := 80, url := "u", publicKey := "k" }

/-- A concrete descriptor of the wrong channel kind. -/
def exServerWrong : ServerInfo :=
  { chType := ChannelType.HTTP, host := "h", port := 80, url := "u", publicKey := "k" }

/-- A started channel, collaborators set, one task posted. -/
def exFlagsRun : ChannelState :=
  { stopped := false, connectionInProgress := false, taskPosted := true,
    firstStart := false, multiplexer := some 1, demultiplexer := some 1,
    currentServer := some exServer, encoderDecoder := none, pendingTasks := 1 }

/-- The worker thread flag: once `firstStart_` has been cleared it stays
cleared, and a running channel has always cleared it. -/
def FirstStartInv (sys : Sys) : Prop :=
  sys.flags.stopped = false → sys.flags.firstStart = false

/-- A started channel whose multiplexer was never set. -/
def exFlagsNoMux : ChannelState :=
  { stopped := false, connectionInProgress := false, taskPosted := true,
    firstStart := false, multiplexer := none, demultiplexer := none,
    currentServer := some exServer, encoderDecoder := none, pendingTasks := 1 }

/-- A stopped channel with a stale queued task. -/
def exFlagsStopped : ChannelState :=
  { stopped := true, connectionInProgress := false, taskPosted := true,
    firstStart := false, multiplexer := some 1, demultiplexer := some 1,
    currentServer := some exServer, encoderDecoder := none, pendingTasks := 1 }

/-- A started, idle channel (no task pending, nothing in flight). -/
def exFlagsIdle : ChannelState :=
  { stopped := false, connectionInProgress := false, taskPosted := false,
    firstStart := false, multiplexer := some 1, demultiplexer := some 1,
    currentServer := some exServer, encoderDecoder := none, pendingTasks := 0 }

/-- Discriminator for `onServerFailed` events. -/
def isServerFailedEv : Event → Bool
  | Event.onServerFailed _ => true
  | _ => false

/-- Discriminator for `postTask` events. -/
def isPostTaskEv : Event → Bool
  | Event.postTask => true
  | _ => false

/-- A running channel with a request in flight. -/
def exFlagsInFlight : ChannelState :=
  { stopped := false, connectionInProgress := true, taskPosted := false,
    firstStart := false, multiplexer := some 1, demultiplexer := some 1,
    currentServer := some exServer, encoderDecoder := none, pendingTasks := 0 }

/-! ### Basic lemmas about the lock-section functions -/

@[simp]
theorem dequeue_stopped (s : ChannelState) : (dequeue s).stopped = s.stopped := rfl

@[simp]
theorem dequeue_cip (s : ChannelState) :
    (dequeue s).connectionInProgress = s.connectionInProgress := rfl

@[simp]
theorem dequeue_taskPosted (s : ChannelState) : (dequeue s).taskPosted = s.taskPosted := rfl

@[simp]
theorem dequeue_firstStart (s : ChannelState) : (dequeue s).firstStart = s.firstStart := rfl

@[simp]
theorem dequeue_multiplexer (s : ChannelState) : (dequeue s).multiplexer = s.multiplexer := rfl

@[simp]
theorem dequeue_demultiplexer (s : ChannelState) :
    (dequeue s).demultiplexer = s.demultiplexer := rfl

@[simp]
theorem dequeue_currentServer (s : ChannelState) :
    (dequeue s).currentServer = s.currentServer := rfl

theorem stopBeginFn_of_stopped {s : ChannelState} (h : s.stopped = true) :
    stopBeginFn s = (s, [], false) := by
  simp [stopBeginFn, h]

theorem stopBeginFn_of_inflight {s : ChannelState} (h1 : s.stopped = false)
    (h2 : s.connectionInProgress = true) :
    stopBeginFn s = ({ s with stopped := true }, [Emit.mk true Event.closeConnection], true) := by
  simp [stopBeginFn, h1, h2]

theorem stopBeginFn_of_quiet {s : ChannelState} (h1 : s.stopped = false)
    (h2 : s.connectionInProgress = false) :
    stopBeginFn s = ({ s with stopped := true }, [], false) := by
  simp [stopBeginFn, h1, h2]

theorem stopBeginFn_wait_inv {s s1 : ChannelState} {evs : List Emit}
    (h : stopBeginFn s = (s1, evs, true)) :
    s.stopped = false ∧ s.connectionInProgress = true ∧
    s1 = { s with stopped := true } ∧ evs = [Emit.mk true Event.closeConnection] := by
  cases hs : s.stopped with
  | true => rw [stopBeginFn_of_stopped hs] at h; simp at h
  | false =>
    cases hc : s.connectionInProgress with
    | true =>
      rw [stopBeginFn_of_inflight hs hc] at h
      exact ⟨rfl, rfl, by simp_all, by simp_all⟩
    | false => rw [stopBeginFn_of_quiet hs hc] at h; simp at h

theorem stopBeginFn_nowait_inv {s s1 : ChannelState} {evs : List Emit}
    (h : stopBeginFn s = (s1, evs, false)) :
    evs = [] ∧ s1.stopped = true ∧
    ((s1 = s ∧ s.stopped = true) ∨
     (s1 = { s with stopped := true } ∧ s.stopped = false ∧
      s.connectionInProgress = false)) := by
  cases hs : s.stopped with
  | true =>
    rw [stopBeginFn_of_stopped hs] at h
    simp only [Prod.mk.injEq, and_true] at h
    obtain ⟨h1, h2⟩ := h
    subst h1
    simp_all
  | false =>
    cases hc : s.connectionInProgress with
    | true => rw [stopBeginFn_of_inflight hs hc] at h; simp at h
    | false =>
      rw [stopBeginFn_of_quiet hs hc] at h
      simp only [Prod.mk.injEq, and_true] at h
      obtain ⟨h1, h2⟩ := h
      subst h1
      simp_all

theorem entryFn_of_stopped {s : ChannelState} (h : s.stopped = true) :
    entryFn s = EntryResult.aborted { s with taskPosted := false } [] := by
  simp [entryFn, h]

theorem entryFn_aborted_inv {s s1 : ChannelState} {evs : List Emit}
    (h : entryFn s = EntryResult.aborted s1 evs) :
    s.stopped = true ∧ s1 = { s with taskPosted := false } ∧ evs = [] := by
  cases hs : s.stopped with
  | true =>
    rw [entryFn_of_stopped hs] at h
    injection h with h1 h2
    simp_all
  | false =>
    unfold entryFn at h
    simp [hs] at h
    cases hm : s.multiplexer <;> cases hv : s.currentServer <;> simp [hm, hv] at h

theorem entryFn_proceed_inv {s s1 : ChannelState} {ctx : Ctx} {evs : List Emit}
    (h : entryFn s = EntryResult.proceed s1 ctx evs) :
    s.stopped = false ∧
    s1 = { s with taskPosted := false, connectionInProgress := true } ∧
    s.multiplexer.isSome = true ∧
    s.currentServer = some ctx.server ∧
    evs = [Emit.mk true Event.compileRequest, Emit.mk false (Event.sendRequest ctx.server.url)] := by
  cases hs : s.stopped with
  | true => rw [entryFn_of_stopped hs] at h; cases h
  | false =>
    unfold entryFn at h
    simp [hs] at h
    cases hm : s.multiplexer <;> cases hv : s.currentServer <;> simp [hm, hv] at h
    obtain ⟨h1, h2, h3⟩ := h
    subst h2
    exact ⟨rfl, h1.symm, rfl, rfl, by simp_all⟩

theorem entryFn_nullDeref_inv {s : ChannelState} (h : entryFn s = EntryResult.nullDeref) :
    s.stopped = false ∧ (s.multiplexer = none ∨ s.currentServer = none) := by
  cases hs : s.stopped with
  | true => rw [entryFn_of_stopped hs] at h; cases h
  | false =>
    unfold entryFn at h
    simp [hs] at h
    cases hm : s.multiplexer <;> cases hv : s.currentServer <;> simp_all [entryFn]

theorem catchFn_of_stopped {ctx : Ctx} {s : ChannelState} (h : s.stopped = true) :
    catchFn ctx s = ({ s with connectionInProgress := false },
      [Emit.mk true (Event.logInfo "connection aborted"), Emit.mk false Event.notifyAll]) := by
  simp [catchFn, h]

theorem catchFn_of_running {ctx : Ctx} {s : ChannelState} (h : s.stopped = false) :
    catchFn ctx s = ({ s with connectionInProgress := false, stopped := true },
      [Emit.mk true (Event.logError "connection failed"), Emit.mk false Event.notifyAll,
       Emit.mk false (Event.onServerFailed ctx.server)]) := by
  simp [catchFn, h]

theorem catchFn_cip {ctx : Ctx} {s : ChannelState} :
    (catchFn ctx s).1.connectionInProgress = false := by
  cases hs : s.stopped with
  | true => rw [catchFn_of_stopped hs]
  | false => rw [catchFn_of_running hs]

theorem catchFn_stopped_preserved {ctx : Ctx} {s : ChannelState} (h : s.stopped = true) :
    (catchFn ctx s).1.stopped = true := by
  rw [catchFn_of_stopped h]
  exact h

theorem handFn_ok_inv {s : ChannelState} {evs : List Emit}
    (h : handFn s = HandResult.ok evs) :
    s.demultiplexer.isSome = true ∧
    evs = [Emit.mk false Event.processResponse, Emit.mk false Event.notifyAll] := by
  cases hd : s.demultiplexer <;> simp_all [handFn]

theorem startPollFn_noop {s : ChannelState} (h1 : s.stopped = false) (h2 : s.firstStart = false) :
    startPollFn s = (s, []) := by
  simp [startPollFn, h1, h2]

theorem reArmFn_of_go {s : ChannelState} (h1 : s.stopped = false) (h2 : s.taskPosted = false) :
    reArmFn s = ({ s with pendingTasks := s.pendingTasks + 1, taskPosted := true },
      [Emit.mk true Event.postTask]) := by
  simp [reArmFn, postTaskFn, h1, h2]

theorem reArmFn_of_skip {s : ChannelState} (h : s.stopped = true ∨ s.taskPosted = true) :
    reArmFn s = (s, []) := by
  rcases h with h | h <;> simp [reArmFn, h]

@[simp]
theorem reArmFn_cip (s : ChannelState) :
    (reArmFn s).1.connectionInProgress = s.connectionInProgress := by
  unfold reArmFn postTaskFn
  split <;> rfl

@[simp]
theorem reArmFn_stopped (s : ChannelState) : (reArmFn s).1.stopped = s.stopped := by
  unfold reArmFn postTaskFn
  split <;> rfl

@[simp]
theorem reArmFn_firstStart (s : ChannelState) : (reArmFn s).1.firstStart = s.firstStart := by
  unfold reArmFn postTaskFn
  split <;> rfl

@[simp]
theorem startPollFn_cip (s : ChannelState) :
    (startPollFn s).1.connectionInProgress = s.connectionInProgress := by
  unfold startPollFn postTaskFn
  cases hf : s.firstStart <;> cases hs : s.stopped <;> simp [hf, hs]

@[simp]
theorem startPollFn_stopped (s : ChannelState) : (startPollFn s).1.stopped = false := by
  unfold startPollFn postTaskFn
  cases hf : s.firstStart <;> cases hs : s.stopped <;> simp [hf, hs]

@[simp]
theorem startPollFn_firstStart (s : ChannelState) :
    (startPollFn s).1.firstStart = false := by
  unfold startPollFn postTaskFn
  cases hf : s.firstStart <;> cases hs : s.stopped <;> simp [hf, hs]

@[simp]
theorem startPollFn_currentServer (s : ChannelState) :
    (startPollFn s).1.currentServer = s.currentServer := by
  unfold startPollFn postTaskFn
  cases hf : s.firstStart <;> cases hs : s.stopped <;> simp [hf, hs]

@[simp]
theorem startPollFn_encoderDecoder (s : ChannelState) :
    (startPollFn s).1.encoderDecoder = s.encoderDecoder := by
  unfold startPollFn postTaskFn
  cases hf : s.firstStart <;> cases hs : s.stopped <;> simp [hf, hs]

/-- Events emitted by `startPoll`: a thread spawn exactly on the first call,
and a task post exactly when the channel was stopped. -/
theorem startPollFn_events (s : ChannelState) :
    (startPollFn s).2 =
      (if s.firstStart then [Emit.mk true Event.spawnThread] else []) ++
      (if s.stopped then [Emit.mk true Event.postTask] else []) := by
  unfold startPollFn postTaskFn
  cases hf : s.firstStart <;> cases hs : s.stopped <;> simp [hf, hs]

theorem startPollFn_events_mem {s : ChannelState} {e : Emit}
    (he : e ∈ (startPollFn s).2) :
    e = Emit.mk true Event.spawnThread ∨ e = Emit.mk true Event.postTask := by
  rw [startPollFn_events] at he
  rcases List.mem_append.mp he with h | h
  · left; split at h <;> simp_all
  · right; split at h <;> simp_all

@[simp]
theorem stopPollFn_stopped (s : ChannelState) : (stopPollFn s).1.stopped = true := by
  unfold stopPollFn stopBeginFn
  cases hs : s.stopped <;> cases hc : s.connectionInProgress <;> simp [hs, hc]

theorem stopBeginFn_events_mem {s s1 : ChannelState} {evs : List Emit} {w : Bool} {e : Emit}
    (h : stopBeginFn s = (s1, evs, w)) (he : e ∈ evs) :
    e = Emit.mk true Event.closeConnection := by
  unfold stopBeginFn at h
  split at h
  · cases h
    simp at he
  · dsimp only at h
    split at h
    · cases h
      simpa using he
    · cases h
      simp at he

/-- The two possible event lists of the `catch` handler. -/
theorem catchFn_events_cases (ctx : Ctx) (s : ChannelState) :
    (catchFn ctx s).2 = [Emit.mk true (Event.logInfo "connection aborted"),
                         Emit.mk false Event.notifyAll] ∨
    (catchFn ctx s).2 = [Emit.mk true (Event.logError "connection failed"),
                         Emit.mk false Event.notifyAll,
                         Emit.mk false (Event.onServerFailed ctx.server)] := by
  cases hs : s.stopped
  · right; rw [catchFn_of_running hs]
  · left; rw [catchFn_of_stopped hs]

theorem catchFn_events_mem {ctx : Ctx} {s : ChannelState} {e : Emit}
    (he : e ∈ (catchFn ctx s).2) :
    e = Emit.mk true (Event.logInfo "connection aborted") ∨
    e = Emit.mk false Event.notifyAll ∨
    e = Emit.mk true (Event.logError "connection failed") ∨
    e = Emit.mk false (Event.onServerFailed ctx.server) := by
  rcases catchFn_events_cases ctx s with h | h <;> rw [h] at he <;> simp at he <;> tauto

@[simp]
theorem catchFn_firstStart (ctx : Ctx) (s : ChannelState) :
    (catchFn ctx s).1.firstStart = s.firstStart := by
  cases hs : s.stopped
  · rw [catchFn_of_running hs]
  · rw [catchFn_of_stopped hs]

theorem reArmFn_events_mem {s : ChannelState} {e : Emit} (he : e ∈ (reArmFn s).2) :
    e = Emit.mk true Event.postTask := by
  unfold reArmFn postTaskFn at he
  split at he <;> simp_all

/-! ### Reachability invariants -/

theorem cipInv_preserved {sys : Sys} {l : Label} {evs : List Emit} {sys' : Sys}
    (h : Step sys l evs sys') (ih : CipInv sys) : CipInv sys' := by
  unfold CipInv at ih ⊢
  cases h with
  | taskAbort s1 evs hw hp he =>
      obtain ⟨hs, hs1, -⟩ := entryFn_aborted_inv he
      subst hs1
      intro hc
      simp at hc ⊢
      exact ih hc
  | taskProceed s1 ctx evs hw hp he =>
      obtain ⟨hs, hs1, -⟩ := entryFn_proceed_inv he
      subst hs1
      intro hc
      left
      simpa using hs
  | taskCrash hw hp he =>
      intro hc
      simp [dequeue] at hc ⊢
      exact ih hc
  | sendOk ctx hw =>
      intro hc
      simp [recvFn] at hc
  | sendFail ctx hw =>
      intro hc
      simp [catchFn_cip] at hc
  | handOk ctx evs hw hh =>
      intro hc
      simp at hc ⊢
      exact ih hc
  | handCrash ctx hw hh =>
      intro hc
      simp at hc ⊢
      exact ih hc
  | handFail ctx hw hd =>
      intro hc
      simp [catchFn_cip] at hc
  | reArm ctx hw =>
      intro hc
      simp at hc ⊢
      exact ih hc
  | startPoll hcall =>
      intro hc
      left
      simp
  | stopNoWait s1 evs hcall hb =>
      obtain ⟨-, hst, hd⟩ := stopBeginFn_nowait_inv hb
      intro hc
      simp at hc
      rcases hd with ⟨rfl, hstop⟩ | ⟨rfl, hstop, hcip⟩
      · rcases ih hc with h1 | h2
        · rw [hstop] at h1; cases h1
        · rw [hcall] at h2; cases h2
      · simp [hcip] at hc
  | stopWait s1 evs hcall hb =>
      intro hc
      right
      simp
  | stopFinish hcall hcip =>
      intro hc
      simp at hc
      rw [hcip] at hc
      cases hc
  | setMux m hcall =>
      intro hc
      simp [setMultiplexerFn] at hc ⊢
      rcases ih hc with h1 | h2
      · exact Or.inl h1
      · rw [hcall] at h2; cases h2
  | setDemux d hcall =>
      intro hc
      simp [setDemultiplexerFn] at hc ⊢
      rcases ih hc with h1 | h2
      · exact Or.inl h1
      · rw [hcall] at h2; cases h2
  | rebind ck srv hcall =>
      intro hc
      simp [rebindFn] at hc ⊢
      rcases ih hc with h1 | h2
      · exact Or.inl h1
      · rw [hcall] at h2; cases h2

theorem cipInv_reachable {sys : Sys} (h : Reachable sys) : CipInv sys := by
  induction h with
  | init =>
      intro hc
      simp [initSys, initFlags] at hc
  | step sys l evs sys' hr hs ih => exact cipInv_preserved hs ih

theorem firstStartInv_preserved {sys : Sys} {l : Label} {evs : List Emit} {sys' : Sys}
    (h : Step sys l evs sys') (ih : FirstStartInv sys) : FirstStartInv sys' := by
  unfold FirstStartInv at ih ⊢
  cases h with
  | taskAbort s1 evs hw hp he =>
      obtain ⟨hs, hs1, -⟩ := entryFn_aborted_inv he
      subst hs1
      intro hc
      simp at hc ⊢
      exact ih hc
  | taskProceed s1 ctx evs hw hp he =>
      obtain ⟨hs, hs1, -⟩ := entryFn_proceed_inv he
      subst hs1
      intro hc
      simp at hc ⊢
      exact ih hc
  | taskCrash hw hp he =>
      intro hc
      simp [dequeue] at hc ⊢
      exact ih hc
  | sendOk ctx hw =>
      intro hc
      simp [recvFn] at hc ⊢
      exact ih hc
  | sendFail ctx hw =>
      intro hc
      simp at hc
      cases hs : sys.flags.stopped with
      | true => rw [catchFn_stopped_preserved hs] at hc; cases hc
      | false =>
          rw [catchFn_of_running hs] at hc
          simp at hc
  | handOk ctx evs hw hh =>
      intro hc
      simp at hc ⊢
      exact ih hc
  | handCrash ctx hw hh =>
      intro hc
      simp at hc ⊢
      exact ih hc
  | handFail ctx hw hd =>
      intro hc
      simp at hc
      cases hs : sys.flags.stopped with
      | true => rw [catchFn_stopped_preserved hs] at hc; cases hc
      | false =>
          rw [catchFn_of_running hs] at hc
          simp at hc
  | reArm ctx hw =>
      intro hc
      simp at hc ⊢
      exact ih hc
  | startPoll hcall =>
      intro hc
      simp
  | stopNoWait s1 evs hcall hb =>
      obtain ⟨-, hst, hd⟩ := stopBeginFn_nowait_inv hb
      intro hc
      simp at hc
      rw [hst] at hc
      cases hc
  | stopWait s1 evs hcall hb =>
      obtain ⟨-, -, hs1, -⟩ := stopBeginFn_wait_inv hb
      subst hs1
      intro hc
      simp at hc
  | stopFinish hcall hcip =>
      intro hc
      simp at hc ⊢
      exact ih hc
  | setMux m hcall =>
      intro hc
      simp [setMultiplexerFn] at hc ⊢
      exact ih hc
  | setDemux d hcall =>
      intro hc
      simp [setDemultiplexerFn] at hc ⊢
      exact ih hc
  | rebind ck srv hcall =>
      intro hc
      simp [rebindFn] at hc ⊢
      exact ih hc

theorem firstStartInv_reachable {sys : Sys} (h : Reachable sys) : FirstStartInv sys := by
  induction h with
  | init =>
      intro hc
      simp [initSys, initFlags] at hc
  | step sys l evs sys' hr hs ih => exact firstStartInv_preserved hs ih

theorem stopPollFn_of_stopped {s : ChannelState} (h : s.stopped = true) :
    stopPollFn s = (s, []) := by
  unfold stopPollFn
  rw [stopBeginFn_of_stopped h]
  simp

theorem stopPollFn_of_quiet {s : ChannelState} (h1 : s.stopped = false)
    (h2 : s.connectionInProgress = false) :
    stopPollFn s = ({ s with stopped := true }, []) := by
  unfold stopPollFn
  rw [stopBeginFn_of_quiet h1 h2]
  simp

theorem stopPollFn_of_inflight {s : ChannelState} (h1 : s.stopped = false)
    (h2 : s.connectionInProgress = true) :
    stopPollFn s = ({ s with stopped := true, connectionInProgress := false },
                    [Emit.mk true Event.closeConnection]) := by
  unfold stopPollFn
  rw [stopBeginFn_of_inflight h1 h2]
  simp

/-! ### Claims -/

/-- C10: the fixed supported-category map binds exactly PROFILE,
CONFIGURATION, NOTIFICATION and USER to BIDIRECTIONAL and EVENT to DOWN
(all other transport types are absent and the map has five entries);
consequently `sync(EVENT)` is rejected as an unsupported-direction no-op:
an error is logged and the channel state is unchanged. -/
theorem C10_supported_types :
    lookupDir SUPPORTED_TYPES TransportType.PROFILE = some ChannelDirection.BIDIRECTIONAL ∧
    lookupDir SUPPORTED_TYPES TransportType.CONFIGURATION = some ChannelDirection.BIDIRECTIONAL ∧
    lookupDir SUPPORTED_TYPES TransportType.NOTIFICATION = some ChannelDirection.BIDIRECTIONAL ∧
    lookupDir SUPPORTED_TYPES TransportType.USER = some ChannelDirection.BIDIRECTIONAL ∧
    lookupDir SUPPORTED_TYPES TransportType.EVENT = some ChannelDirection.DOWN ∧
    lookupDir SUPPORTED_TYPES TransportType.BOOTSTRAP = none ∧
    lookupDir SUPPORTED_TYPES TransportType.LOGGING = none ∧
    SUPPORTED_TYPES.length = 5 ∧
    ∀ s : ChannelState, syncFn TransportType.EVENT s =
      (s, [Emit.mk false (Event.logError "unsupported transport type")]) := by
  refine ⟨by decide, by decide, by decide, by decide, by decide, by decide, by decide,
    by decide, ?_⟩
  intro s
  unfold syncFn
  rw [show lookupDir SUPPORTED_TYPES TransportType.EVENT = some ChannelDirection.DOWN
        from by decide]
  simp

/-- Witness for C10 at the constructor state. -/
theorem C10_supported_types_witness :
    syncFn TransportType.EVENT initFlags =
      (initFlags, [Emit.mk false (Event.logError "unsupported transport type")]) :=
  C10_supported_types.2.2.2.2.2.2.2.2 initFlags

/-- C8: `sync` on a category with UP or BIDIRECTIONAL declared direction and
a bound server stops then restarts polling; `sync` with no bound server,
`sync` on a category without upward flow (direction DOWN or absent), and
`syncAll` with no bound server are each logged no-ops leaving the state
unchanged; `syncAll` with a server bound also stops then restarts. -/
theorem C8_sync_noop_guards :
    (∀ (t : TransportType) (d : ChannelDirection) (s : ChannelState),
        lookupDir SUPPORTED_TYPES t = some d →
        (d = ChannelDirection.UP ∨ d = ChannelDirection.BIDIRECTIONAL) →
        s.currentServer.isSome = true →
        syncFn t s = ((startPollFn (stopPollFn s).1).1,
                      (stopPollFn s).2 ++ (startPollFn (stopPollFn s).1).2)) ∧
    (∀ (t : TransportType) (d : ChannelDirection) (s : ChannelState),
        lookupDir SUPPORTED_TYPES t = some d →
        (d = ChannelDirection.UP ∨ d = ChannelDirection.BIDIRECTIONAL) →
        s.currentServer = none →
        syncFn t s = (s, [Emit.mk true (Event.logWarn "server is null")])) ∧
    (∀ (t : TransportType) (s : ChannelState),
        lookupDir SUPPORTED_TYPES t = some ChannelDirection.DOWN →
        syncFn t s = (s, [Emit.mk false (Event.logError "unsupported transport type")])) ∧
    (∀ (t : TransportType) (s : ChannelState),
        lookupDir SUPPORTED_TYPES t = none →
        syncFn t s = (s, [Emit.mk false (Event.logError "unsupported transport type")])) ∧
    (∀ s : ChannelState, s.currentServer = none →
        syncAllFn s = (s, [Emit.mk true (Event.logWarn "server is null")])) ∧
    (∀ s : ChannelState, s.currentServer.isSome = true →
        syncAllFn s = ((startPollFn (stopPollFn s).1).1,
                       (stopPollFn s).2 ++ (startPollFn (stopPollFn s).1).2)) := by
  refine ⟨?_, ?_, ?_, ?_, ?_, ?_⟩
  · intro t d s h1 h2 h3
    unfold syncFn
    rw [h1]
    simp [h2, h3]
  · intro t d s h1 h2 h3
    unfold syncFn
    rw [h1]
    simp [h2, h3]
  · intro t s h1
    unfold syncFn
    rw [h1]
    simp
  · intro t s h1
    unfold syncFn
    rw [h1]
  · intro s h1
    unfold syncAllFn
    simp [h1]
  · intro s h1
    unfold syncAllFn
    simp [h1]

/-- Witness for C8: `sync(PROFILE)` with no server bound is a warned no-op. -/
theorem C8_sync_noop_guards_witness :
    syncFn TransportType.PROFILE initFlags =
      (initFlags, [Emit.mk true (Event.logWarn "server is null")]) :=
  C8_sync_noop_guards.2.1 TransportType.PROFILE ChannelDirection.BIDIRECTIONAL initFlags
    (by decide) (Or.inr rfl) rfl

/-- C7: `setServer` with a descriptor of the wrong kind is rejected with a
log and no state change; with an HTTP_LP descriptor it stops polling (per
`stopPoll` semantics), replaces the server binding together with a freshly
derived encryption context in one mutex section, and starts polling again:
afterwards the new server and derived context are installed, the channel is
started, a poll task has been posted, and if a request was in flight the
transport connection was closed first (the close precedes everything else
emitted). -/
theorem C7_setServer :
    (∀ (ck : String × String) (srv : ServerInfo) (s : ChannelState),
        srv.chType ≠ ChannelType.HTTP_LP →
        setServerFn ck srv s = (s, [Emit.mk false (Event.logError "invalid server info")])) ∧
    (∀ (ck : String × String) (srv : ServerInfo) (s : ChannelState),
        srv.chType = ChannelType.HTTP_LP →
        setServerFn ck srv s =
          ((startPollFn (rebindFn ck srv (stopPollFn s).1)).1,
           (stopPollFn s).2 ++ (startPollFn (rebindFn ck srv (stopPollFn s).1)).2)) ∧
    (∀ (ck : String × String) (srv : ServerInfo) (s : ChannelState),
        srv.chType = ChannelType.HTTP_LP →
        (setServerFn ck srv s).1.currentServer = some srv ∧
        (setServerFn ck srv s).1.encoderDecoder = some (deriveEncDec ck srv.publicKey) ∧
        (setServerFn ck srv s).1.stopped = false ∧
        Emit.mk true Event.postTask ∈ (setServerFn ck srv s).2) ∧
    (∀ (ck : String × String) (srv : ServerInfo) (s : ChannelState),
        srv.chType = ChannelType.HTTP_LP → s.stopped = false →
        s.connectionInProgress = true →
        (setServerFn ck srv s).2.head? = some (Emit.mk true Event.closeConnection)) := by
  refine ⟨?_, ?_, ?_, ?_⟩
  · intro ck srv s h
    unfold setServerFn
    rw [if_neg h]
  · intro ck srv s h
    unfold setServerFn
    rw [if_pos h]
    rfl
  · intro ck srv s h
    unfold setServerFn
    rw [if_pos h]
    dsimp only
    refine ⟨by simp, by simp, by simp, ?_⟩
    rw [startPollFn_events]
    simp [stopPollFn_stopped]
  · intro ck srv s h h1 h2
    unfold setServerFn
    rw [if_pos h, stopPollFn_of_inflight h1 h2]
    rfl

/-- Witness for C7: `setServer` with a plain-HTTP descriptor changes
nothing. -/
theorem C7_setServer_witness :
    setServerFn ("a", "b") exServerWrong initFlags =
      (initFlags, [Emit.mk false (Event.logError "invalid server info")]) :=
  C7_setServer.1 ("a", "b") exServerWrong initFlags (by decide)

theorem startPollFn_no_spawn {s : ChannelState} (h : s.firstStart = false) :
    Emit.mk true Event.spawnThread ∉ (startPollFn s).2 := by
  rw [startPollFn_events, h]
  simp

theorem catchFn_no_spawn {ctx : Ctx} {s : ChannelState} :
    Emit.mk true Event.spawnThread ∉ (catchFn ctx s).2 := by
  intro hm
  rcases catchFn_events_mem hm with h | h | h | h <;> simp at h

/-- C6: `startPoll` on an already-running channel and `stopPoll` on an
already-stopped channel are no-ops (no state change, no events); the worker
thread is spawned exactly on the first `startPoll` call (which also clears
`firstStart_`) and is never spawned by any other step nor ever again once
`firstStart_` is cleared; a running channel has always cleared
`firstStart_`, so the idempotence hypothesis of the first conjunct covers
every reachable running state. -/
theorem C6_idempotent_lazy_worker :
    (∀ s : ChannelState, s.stopped = false → s.firstStart = false →
        startPollFn s = (s, [])) ∧
    (∀ s : ChannelState, s.stopped = true → stopBeginFn s = (s, [], false)) ∧
    (∀ s : ChannelState, s.firstStart = true →
        Emit.mk true Event.spawnThread ∈ (startPollFn s).2 ∧
        (startPollFn s).1.firstStart = false) ∧
    (∀ (sys : Sys) (l : Label) (evs : List Emit) (sys' : Sys),
        Step sys l evs sys' → Emit.mk true Event.spawnThread ∈ evs →
        l = Label.cStartPoll ∧ sys.flags.firstStart = true) ∧
    (∀ (sys : Sys) (l : Label) (evs : List Emit) (sys' : Sys),
        Step sys l evs sys' → sys.flags.firstStart = false →
        sys'.flags.firstStart = false ∧ Emit.mk true Event.spawnThread ∉ evs) ∧
    (∀ sys : Sys, Reachable sys → sys.flags.stopped = false →
        sys.flags.firstStart = false) := by
  refine ⟨?_, ?_, ?_, ?_, ?_, ?_⟩
  · intro s h1 h2
    exact startPollFn_noop h1 h2
  · intro s h
    exact stopBeginFn_of_stopped h
  · intro s h
    constructor
    · rw [startPollFn_events, h]
      simp
    · simp
  · intro sys l evs sys' hstep hm
    cases hstep with
    | taskAbort s1 evs hw hp he =>
        obtain ⟨-, -, hevs⟩ := entryFn_aborted_inv he
        subst hevs
        simp at hm
    | taskProceed s1 ctx evs hw hp he =>
        obtain ⟨-, -, -, -, hevs⟩ := entryFn_proceed_inv he
        subst hevs
        simp at hm
    | taskCrash hw hp he => simp at hm
    | sendOk ctx hw => simp [recvFn] at hm
    | sendFail ctx hw => exact absurd hm catchFn_no_spawn
    | handOk ctx evs hw hh =>
        obtain ⟨-, hevs⟩ := handFn_ok_inv hh
        subst hevs
        simp at hm
    | handCrash ctx hw hh => simp at hm
    | handFail ctx hw hd => exact absurd hm catchFn_no_spawn
    | reArm ctx hw =>
        have := reArmFn_events_mem hm
        simp at this
    | startPoll hcall =>
        refine ⟨rfl, ?_⟩
        cases hff : sys.flags.firstStart
        · exact absurd hm (startPollFn_no_spawn hff)
        · rfl
    | stopNoWait s1 evs hcall hb =>
        have := stopBeginFn_events_mem hb hm
        simp at this
    | stopWait s1 evs hcall hb =>
        have := stopBeginFn_events_mem hb hm
        simp at this
    | stopFinish hcall hcip => simp at hm
    | setMux m hcall => simp at hm
    | setDemux d hcall => simp at hm
    | rebind ck srv hcall => simp at hm
  · intro sys l evs sys' hstep hf
    cases hstep with
    | taskAbort s1 evs hw hp he =>
        obtain ⟨-, hs1, hevs⟩ := entryFn_aborted_inv he
        subst hs1 hevs
        exact ⟨by simpa using hf, by simp⟩
    | taskProceed s1 ctx evs hw hp he =>
        obtain ⟨-, hs1, -, -, hevs⟩ := entryFn_proceed_inv he
        subst hs1 hevs
        exact ⟨by simpa using hf, by simp⟩
    | taskCrash hw hp he => exact ⟨by simpa using hf, by simp⟩
    | sendOk ctx hw => exact ⟨by simpa [recvFn] using hf, by simp [recvFn]⟩
    | sendFail ctx hw =>
        exact ⟨by simpa [catchFn_firstStart] using hf, catchFn_no_spawn⟩
    | handOk ctx evs hw hh =>
        obtain ⟨-, hevs⟩ := handFn_ok_inv hh
        subst hevs
        exact ⟨by simpa using hf, by simp⟩
    | handCrash ctx hw hh => exact ⟨by simpa using hf, by simp⟩
    | handFail ctx hw hd =>
        exact ⟨by simpa [catchFn_firstStart] using hf, catchFn_no_spawn⟩
    | reArm ctx hw => exact ⟨by simpa using hf, fun hm => by simpa using reArmFn_events_mem hm⟩
    | startPoll hcall => exact ⟨by simp, startPollFn_no_spawn hf⟩
    | stopNoWait s1 evs hcall hb =>
        obtain ⟨hevs, -, hd⟩ := stopBeginFn_nowait_inv hb
        subst hevs
        rcases hd with ⟨rfl, -⟩ | ⟨rfl, -, -⟩
        · exact ⟨by simpa using hf, by simp⟩
        · exact ⟨by simpa using hf, by simp⟩
    | stopWait s1 evs hcall hb =>
        obtain ⟨-, -, hs1, hevs⟩ := stopBeginFn_wait_inv hb
        subst hs1 hevs
        exact ⟨by simpa using hf, by simp⟩
    | stopFinish hcall hcip => exact ⟨by simpa using hf, by simp⟩
    | setMux m hcall => exact ⟨by simpa [setMultiplexerFn] using hf, by simp⟩
    | setDemux d hcall => exact ⟨by simpa [setDemultiplexerFn] using hf, by simp⟩
    | rebind ck srv hcall => exact ⟨by simpa [rebindFn] using hf, by simp⟩
  · intro sys hr
    exact firstStartInv_reachable hr

/-- Witness for C6: `startPoll` on the running state `exFlagsRun` changes
nothing and emits nothing. -/
theorem C6_idempotent_lazy_worker_witness :
    startPollFn exFlagsRun = (exFlagsRun, []) :=
  C6_idempotent_lazy_worker.1 exFlagsRun rfl rfl

/-- C5: a poll cycle that observes `stopped_` when it acquires the mutex
aborts: it emits nothing (no request, no collaborator call), clears only
`taskPosted_` (and consumes its queue slot), leaves the worker where it was
and does not touch the in-flight flag; and in every reachable state the
in-flight flag is set only while the channel is started in the spec's sense
(`stopped_` still false, or a `stopPoll` call still in progress in its
condition wait). -/
theorem C5_stopped_cycle_aborts :
    (∀ s : ChannelState, s.stopped = true →
        entryFn s = EntryResult.aborted { s with taskPosted := false } []) ∧
    (∀ (sys : Sys) (evs : List Emit) (sys' : Sys),
        Step sys Label.wTaskStart evs sys' → sys.flags.stopped = true →
        evs = [] ∧ sys'.worker = sys.worker ∧
        sys'.flags = { sys.flags with taskPosted := false,
                                       pendingTasks := sys.flags.pendingTasks - 1 } ∧
        sys'.flags.connectionInProgress = sys.flags.connectionInProgress) ∧
    (∀ sys : Sys, Reachable sys → sys.flags.connectionInProgress = true →
        sys.flags.stopped = false ∨ sys.caller = CallerPC.stopWaiting) := by
  refine ⟨?_, ?_, ?_⟩
  · intro s h
    exact entryFn_of_stopped h
  · intro sys evs sys' hstep hs
    cases hstep with
    | taskAbort s1 evs hw hp he =>
        obtain ⟨-, hs1, hevs⟩ := entryFn_aborted_inv he
        subst hs1 hevs
        refine ⟨rfl, rfl, ?_, ?_⟩
        · simp [dequeue]
        · simp
    | taskProceed s1 ctx evs hw hp he =>
        have h0 := (entryFn_proceed_inv he).1
        simp [hs] at h0
    | taskCrash hw hp he =>
        have h0 := (entryFn_nullDeref_inv he).1
        simp [hs] at h0
  · intro sys hr
    exact cipInv_reachable hr

/-- Witness for C5: the entry section aborts on the stopped state. -/
theorem C5_stopped_cycle_aborts_witness :
    entryFn exFlagsStopped =
      EntryResult.aborted { exFlagsStopped with taskPosted := false } [] :=
  C5_stopped_cycle_aborts.1 exFlagsStopped rfl

/-- C4: the re-arm section posts the next poll cycle (setting `taskPosted_`)
iff the channel is still started and no task is already pending, and changes
nothing otherwise; the re-arm action runs only from the worker's `rearming`
point, which is entered only by the demultiplexer hand-off action (the one
emitting `processResponse`), so each self-re-arm happens strictly after the
cycle's response was handed to the demultiplexer. -/
theorem C4_self_rearm :
    (∀ s : ChannelState,
        Emit.mk true Event.postTask ∈ (reArmFn s).2 ↔
          (s.stopped = false ∧ s.taskPosted = false)) ∧
    (∀ s : ChannelState, s.stopped = false → s.taskPosted = false →
        (reArmFn s).1 = { s with taskPosted := true,
                                 pendingTasks := s.pendingTasks + 1 }) ∧
    (∀ s : ChannelState, s.stopped = true ∨ s.taskPosted = true →
        (reArmFn s).1 = s) ∧
    (∀ (sys : Sys) (l : Label) (evs : List Emit) (sys' : Sys) (ctx : Ctx),
        Step sys l evs sys' → sys'.worker = WorkerPC.rearming ctx →
        sys.worker = WorkerPC.rearming ctx ∨
        (l = Label.wHandOk ∧ sys.worker = WorkerPC.handing ctx ∧
         Emit.mk false Event.processResponse ∈ evs)) ∧
    (∀ (sys : Sys) (evs : List Emit) (sys' : Sys),
        Step sys Label.wReArm evs sys' →
        (∃ ctx : Ctx, sys.worker = WorkerPC.rearming ctx) ∧
        evs = (reArmFn sys.flags).2 ∧ sys'.worker = WorkerPC.idle) := by
  refine ⟨?_, ?_, ?_, ?_, ?_⟩
  · intro s
    cases hs : s.stopped <;> cases ht : s.taskPosted <;>
      simp [reArmFn, postTaskFn, hs, ht]
  · intro s h1 h2
    rw [reArmFn_of_go h1 h2]
  · intro s h
    rw [reArmFn_of_skip h]
  · intro sys l evs sys' ctx hstep hpost
    cases hstep with
    | taskAbort s1 evs hw hp he => exact Or.inl hpost
    | taskProceed s1 ctx2 evs hw hp he => simp at hpost
    | taskCrash hw hp he => simp at hpost
    | sendOk ctx2 hw => simp at hpost
    | sendFail ctx2 hw => simp at hpost
    | handOk ctx2 evs hw hh =>
        simp at hpost
        subst hpost
        obtain ⟨-, hevs⟩ := handFn_ok_inv hh
        subst hevs
        exact Or.inr ⟨rfl, hw, by simp⟩
    | handCrash ctx2 hw hh => simp at hpost
    | handFail ctx2 hw hd => simp at hpost
    | reArm ctx2 hw => simp at hpost
    | startPoll hcall => exact Or.inl hpost
    | stopNoWait s1 evs hcall hb => exact Or.inl hpost
    | stopWait s1 evs hcall hb => exact Or.inl hpost
    | stopFinish hcall hcip => exact Or.inl hpost
    | setMux m hcall => exact Or.inl hpost
    | setDemux d hcall => exact Or.inl hpost
    | rebind ck srv hcall => exact Or.inl hpost
  · intro sys evs sys' hstep
    cases hstep with
    | reArm ctx hw => exact ⟨⟨ctx, hw⟩, rfl, rfl⟩

/-- Witness for C4: re-arming from a started idle state posts one task. -/
theorem C4_self_rearm_witness :
    (reArmFn exFlagsIdle).1 =
      { exFlagsIdle with taskPosted := true,
                         pendingTasks := exFlagsIdle.pendingTasks + 1 } :=
  C4_self_rearm.2.1 exFlagsIdle rfl rfl

/-- C2: when a poll cycle's send (or a collaborator call inside the `try`
block) raises: if the channel is not stopped when the handler runs, the
handler stops the channel and `onServerFailed` is emitted exactly once, with
the server captured at the start of the cycle (the context the entry section
took from `currentServer_`); if the channel was already stopped, the abort is
logged and `onServerFailed` is never emitted. Both branches clear the
in-flight flag, notify waiters, and emit no task post; the failure actions
return the worker to `idle` without passing through the re-arm section. -/
theorem C2_failure_escalation :
    (∀ (ctx : Ctx) (s : ChannelState), s.stopped = false →
        (catchFn ctx s).1.stopped = true ∧
        (catchFn ctx s).1.connectionInProgress = false ∧
        ((catchFn ctx s).2.filter fun e => isServerFailedEv e.ev) =
          [Emit.mk false (Event.onServerFailed ctx.server)] ∧
        Emit.mk false Event.notifyAll ∈ (catchFn ctx s).2 ∧
        ((catchFn ctx s).2.filter fun e => isPostTaskEv e.ev) = []) ∧
    (∀ (ctx : Ctx) (s : ChannelState), s.stopped = true →
        (catchFn ctx s).1 = { s with connectionInProgress := false } ∧
        ((catchFn ctx s).2.filter fun e => isServerFailedEv e.ev) = [] ∧
        Emit.mk true (Event.logInfo "connection aborted") ∈ (catchFn ctx s).2 ∧
        Emit.mk false Event.notifyAll ∈ (catchFn ctx s).2 ∧
        ((catchFn ctx s).2.filter fun e => isPostTaskEv e.ev) = []) ∧
    (∀ (sys : Sys) (ctx : Ctx) (evs : List Emit) (sys' : Sys),
        Step sys Label.wSendFail evs sys' → sys.worker = WorkerPC.sending ctx →
        evs = (catchFn ctx sys.flags).2 ∧ sys'.worker = WorkerPC.idle) ∧
    (∀ (sys : Sys) (ctx : Ctx) (evs : List Emit) (sys' : Sys),
        Step sys Label.wHandFail evs sys' → sys.worker = WorkerPC.handing ctx →
        evs = (catchFn ctx sys.flags).2 ∧ sys'.worker = WorkerPC.idle) ∧
    (∀ (s s1 : ChannelState) (ctx : Ctx) (evs : List Emit),
        entryFn s = EntryResult.proceed s1 ctx evs →
        s.currentServer = some ctx.server) := by
  refine ⟨?_, ?_, ?_, ?_, ?_⟩
  · intro ctx s h
    rw [catchFn_of_running h]
    exact ⟨rfl, rfl, rfl, by simp, rfl⟩
  · intro ctx s h
    rw [catchFn_of_stopped h]
    exact ⟨rfl, rfl, by simp, by simp, rfl⟩
  · intro sys ctx evs sys' hstep hw2
    cases hstep with
    | sendFail ctx2 hw =>
        rw [hw] at hw2
        injection hw2 with h
        subst h
        exact ⟨rfl, rfl⟩
  · intro sys ctx evs sys' hstep hw2
    cases hstep with
    | handFail ctx2 hw hd =>
        rw [hw] at hw2
        injection hw2 with h
        subst h
        exact ⟨rfl, rfl⟩
  · intro s s1 ctx evs h
    exact (entryFn_proceed_inv h).2.2.2.1

/-- Witness for C2: concrete failure handling on the started state. -/
theorem C2_failure_escalation_witness :
    (catchFn ⟨exServer⟩ exFlagsRun).1.stopped = true ∧
    ((catchFn ⟨exServer⟩ exFlagsRun).2.filter fun e => isServerFailedEv e.ev) =
      [Emit.mk false (Event.onServerFailed exServer)] :=
  ⟨(C2_failure_escalation.1 ⟨exServer⟩ exFlagsRun rfl).1,
   (C2_failure_escalation.1 ⟨exServer⟩ exFlagsRun rfl).2.2.1⟩

/-- C1: `stopPoll` on a stopped channel is a no-op; on a running channel with
a request in flight it closes the transport connection and suspends in the
condition wait, whose exit (`cStopFinish`) is enabled only in states where
the in-flight flag is clear; and once the channel is stopped with nothing in
flight, every step other than `startPoll` keeps it stopped with nothing in
flight — so after a completed `stopPoll` the in-flight flag stays false
until `startPoll` is called again. -/
theorem C1_stop_blocks_until_quiescent :
    (∀ s : ChannelState, s.stopped = true → stopBeginFn s = (s, [], false)) ∧
    (∀ s : ChannelState, s.stopped = false → s.connectionInProgress = true →
        stopBeginFn s = ({ s with stopped := true },
          [Emit.mk true Event.closeConnection], true)) ∧
    (∀ (sys : Sys) (evs : List Emit) (sys' : Sys),
        Step sys Label.cStopFinish evs sys' →
        sys.flags.connectionInProgress = false ∧
        sys'.flags.connectionInProgress = false) ∧
    (∀ (sys : Sys) (l : Label) (evs : List Emit) (sys' : Sys),
        Step sys l evs sys' → l ≠ Label.cStartPoll →
        sys.flags.stopped = true → sys.flags.connectionInProgress = false →
        sys'.flags.stopped = true ∧ sys'.flags.connectionInProgress = false) := by
  refine ⟨?_, ?_, ?_, ?_⟩
  · intro s h
    exact stopBeginFn_of_stopped h
  · intro s h1 h2
    exact stopBeginFn_of_inflight h1 h2
  · intro sys evs sys' hstep
    cases hstep with
    | stopFinish hcall hcip => exact ⟨hcip, by simpa using hcip⟩
  · intro sys l evs sys' hstep hl hs hc
    cases hstep with
    | taskAbort s1 evs hw hp he =>
        obtain ⟨-, hs1, -⟩ := entryFn_aborted_inv he
        subst hs1
        exact ⟨by simpa using hs, by simpa using hc⟩
    | taskProceed s1 ctx evs hw hp he =>
        have h0 := (entryFn_proceed_inv he).1
        simp [hs] at h0
    | taskCrash hw hp he =>
        have h0 := (entryFn_nullDeref_inv he).1
        simp [hs] at h0
    | sendOk ctx hw => exact ⟨by simpa [recvFn] using hs, by simp [recvFn]⟩
    | sendFail ctx hw =>
        exact ⟨by simpa using catchFn_stopped_preserved hs, by simpa using catchFn_cip⟩
    | handOk ctx evs hw hh => exact ⟨by simpa using hs, by simpa using hc⟩
    | handCrash ctx hw hh => exact ⟨by simpa using hs, by simpa using hc⟩
    | handFail ctx hw hd =>
        exact ⟨by simpa using catchFn_stopped_preserved hs, by simpa using catchFn_cip⟩
    | reArm ctx hw => exact ⟨by simpa using hs, by simpa using hc⟩
    | startPoll hcall => exact absurd rfl hl
    | stopNoWait s1 evs hcall hb =>
        obtain ⟨-, hst, hd⟩ := stopBeginFn_nowait_inv hb
        rcases hd with ⟨rfl, -⟩ | ⟨rfl, hstop, -⟩
        · exact ⟨by simpa using hs, by simpa using hc⟩
        · rw [hstop] at hs
          cases hs
    | stopWait s1 evs hcall hb =>
        obtain ⟨hstop, -, -, -⟩ := stopBeginFn_wait_inv hb
        rw [hs] at hstop
        cases hstop
    | stopFinish hcall hcip => exact ⟨by simpa using hs, by simpa using hc⟩
    | setMux m hcall =>
        exact ⟨by simpa [setMultiplexerFn] using hs, by simpa [setMultiplexerFn] using hc⟩
    | setDemux d hcall =>
        exact ⟨by simpa [setDemultiplexerFn] using hs, by simpa [setDemultiplexerFn] using hc⟩
    | rebind ck srv hcall =>
        exact ⟨by simpa [rebindFn] using hs, by simpa [rebindFn] using hc⟩

/-- Witness for C1: stopping a channel with a request in flight closes the
connection and enters the wait. -/
theorem C1_stop_blocks_until_quiescent_witness :
    stopBeginFn exFlagsInFlight =
      ({ exFlagsInFlight with stopped := true },
       [Emit.mk true Event.closeConnection], true) :=
  C1_stop_blocks_until_quiescent.2.1 exFlagsInFlight rfl rfl

/-- C3 counterexample: on the started state `exFlagsNoMux`, whose multiplexer
was never set, the entry section of the poll cycle does not abort: it reaches
the unchecked `multiplexer_->compileRequest` dereference (`nullDeref`), so the
cycle executes into a null-pointer dereference instead of being skipped. -/
theorem C3_counterexample :
    exFlagsNoMux.multiplexer = none ∧ exFlagsNoMux.stopped = false ∧
    entryFn exFlagsNoMux = EntryResult.nullDeref :=
  ⟨rfl, rfl, rfl⟩

/-- C3 amended: the source has no presence check on the collaborator
pointers. A poll cycle that begins while the channel is started and the
multiplexer (or the server binding) is unset dereferences the null pointer in
its entry section, and a successful cycle with the demultiplexer unset
dereferences it in the hand-off; in the step semantics such a cycle drives
the worker into the `crashed` state (undefined behaviour) rather than
aborting cleanly — though it sends no request and escalates no failure,
because it never reaches either point. -/
theorem C3_no_presence_check :
    (∀ s : ChannelState, s.stopped = false → s.multiplexer = none →
        entryFn s = EntryResult.nullDeref) ∧
    (∀ s : ChannelState, s.demultiplexer = none →
        handFn s = HandResult.nullDeref) ∧
    (∀ (sys : Sys) (evs : List Emit) (sys' : Sys),
        Step sys Label.wTaskStart evs sys' →
        sys.flags.stopped = false → sys.flags.multiplexer = none →
        sys'.worker = WorkerPC.crashed ∧ evs = []) := by
  refine ⟨?_, ?_, ?_⟩
  · intro s h1 h2
    unfold entryFn
    simp [h1, h2]
  · intro s h
    unfold handFn
    rw [h]
  · intro sys evs sys' hstep hs hm
    cases hstep with
    | taskAbort s1 evs hw hp he =>
        have h0 := (entryFn_aborted_inv he).1
        simp [hs] at h0
    | taskProceed s1 ctx evs hw hp he =>
        have h0 := (entryFn_proceed_inv he).2.2.1
        simp [hm] at h0
    | taskCrash hw hp he => exact ⟨rfl, rfl⟩

/-- Witness for C3's amended statement at the concrete state. -/
theorem C3_no_presence_check_witness :
    entryFn exFlagsNoMux = EntryResult.nullDeref :=
  C3_no_presence_check.1 exFlagsNoMux rfl rfl

/-- C9 counterexample: on the concrete started state `exFlagsRun` the entry
lock-section emits `compileRequest` with `locked := true`: the source calls
`multiplexer_->compileRequest` at line 98 while `channelGuard_` is still held
(the unlock is at line 103), contrary to the claim that `compileRequest` is
invoked outside the lock. -/
theorem C9_counterexample :
    entryFn exFlagsRun =
      EntryResult.proceed
        { exFlagsRun with taskPosted := false, connectionInProgress := true }
        ⟨exServer⟩
        [Emit.mk true Event.compileRequest,
         Emit.mk false (Event.sendRequest "u")] :=
  rfl

/-- C9 amended: the mutex is never held across the blocking send or across
the demultiplexer call (`sendRequest` and `processResponse` are always
emitted unlocked), but the multiplexer's `compileRequest` is always invoked
while the mutex is held. -/
theorem C9_lock_discipline :
    ∀ (sys : Sys) (l : Label) (evs : List Emit) (sys' : Sys),
      Step sys l evs sys' → ∀ e ∈ evs,
      (e.ev = Event.processResponse → e.locked = false) ∧
      (∀ u : String, e.ev = Event.sendRequest u → e.locked = false) ∧
      (e.ev = Event.compileRequest → e.locked = true) := by
  intro sys l evs sys' hstep
  cases hstep with
  | taskAbort s1 evs hw hp he =>
      obtain ⟨-, -, hevs⟩ := entryFn_aborted_inv he
      subst hevs
      intro e he2
      simp at he2
  | taskProceed s1 ctx evs hw hp he =>
      obtain ⟨-, -, -, -, hevs⟩ := entryFn_proceed_inv he
      subst hevs
      intro e he2
      simp at he2
      rcases he2 with rfl | rfl <;> exact ⟨by simp, by simp, by simp⟩
  | taskCrash hw hp he =>
      intro e he2
      simp at he2
  | sendOk ctx hw =>
      intro e he2
      simp [recvFn] at he2
  | sendFail ctx hw =>
      intro e he2
      rcases catchFn_events_mem he2 with rfl | rfl | rfl | rfl <;>
        exact ⟨by simp, by simp, by simp⟩
  | handOk ctx evs hw hh =>
      obtain ⟨-, hevs⟩ := handFn_ok_inv hh
      subst hevs
      intro e he2
      simp at he2
      rcases he2 with rfl | rfl <;> exact ⟨by simp, by simp, by simp⟩
  | handCrash ctx hw hh =>
      intro e he2
      simp at he2
  | handFail ctx hw hd =>
      intro e he2
      rcases catchFn_events_mem he2 with rfl | rfl | rfl | rfl <;>
        exact ⟨by simp, by simp, by simp⟩
  | reArm ctx hw =>
      intro e he2
      have := reArmFn_events_mem he2
      subst this
      exact ⟨by simp, by simp, by simp⟩
  | startPoll hcall =>
      intro e he2
      rcases startPollFn_events_mem he2 with rfl | rfl <;>
        exact ⟨by simp, by simp, by simp⟩
  | stopNoWait s1 evs hcall hb =>
      intro e he2
      have := stopBeginFn_events_mem hb he2
      subst this
      exact ⟨by simp, by simp, by simp⟩
  | stopWait s1 evs hcall hb =>
      intro e he2
      have := stopBeginFn_events_mem hb he2
      subst this
      exact ⟨by simp, by simp, by simp⟩
  | stopFinish hcall hcip =>
      intro e he2
      simp at he2
  | setMux m hcall =>
      intro e he2
      simp at he2
  | setDemux d hcall =>
      intro e he2
      simp at he2
  | rebind ck srv hcall =>
      intro e he2
      simp at he2

/-- Witness for C9's amended statement: along a concrete poll-cycle entry
step, `compileRequest` is emitted locked and `sendRequest` unlocked. -/
theorem C9_lock_discipline_witness :
    (Emit.mk true Event.compileRequest).locked = true ∧
    (Emit.mk false (Event.sendRequest "u")).locked = false := by
  have hstep : Step (Sys.mk exFlagsRun WorkerPC.idle CallerPC.free) Label.wTaskStart
      [Emit.mk true Event.compileRequest, Emit.mk false (Event.sendRequest "u")]
      (Sys.mk { exFlagsRun with taskPosted := false, connectionInProgress := true,
                                pendingTasks := 0 }
        (WorkerPC.sending ⟨exServer⟩) CallerPC.free) :=
    Step.taskProceed _ _ _ _ rfl (by decide) (by decide)
  have h := C9_lock_discipline _ _ _ _ hstep
  exact ⟨(h (Emit.mk true Event.compileRequest) (by simp)).2.2 rfl,
         (h (Emit.mk false (Event.sendRequest "u")) (by simp)).2.1 "u" rfl⟩

end LongPoll
